import Mathlib

/-!
# Verification of `scripts/make-click-through.py`

A shallow embedding of the one-file utility that makes an X11 window
click-through by setting an empty input shape via the X SHAPE extension.

The script's observable behaviour is modelled as a pure function from an
environment oracle (does the `Xlib` import succeed, does `display.Display()`
raise, does the server advertise the SHAPE extension, does the request or the
sync raise) and the argument vector, to an exit code, the list of printed
lines, and the trace of protocol-level events (connect, shape request, sync).

Python's `int(s)` / `int(s, 16)` parsing (lines 23-27 of the script) is
modelled faithfully for ASCII input: surrounding whitespace is stripped, an
optional sign is accepted, base 16 accepts an optional `0x`/`0X` marker, and
single underscores are permitted between digits.  CPython additionally strips
some Unicode whitespace and accepts non-ASCII digits; no claim here depends on
non-ASCII input.  The `ValueError` message is modelled without CPython's
quotation marks around the offending literal, which no claim inspects.
-/

/-- Is `c` one of the ASCII whitespace characters stripped by Python `int`,
stated over character codes: 32 space, 9 tab, 10 newline, 13 carriage
return, 11 vertical tab, 12 form feed. -/
def isPySpace (c : Char) : Bool :=
  c.toNat = 32 || c.toNat = 9 || c.toNat = 10 || c.toNat = 13 ||
    c.toNat = 11 || c.toNat = 12

/-- Strip leading and trailing whitespace, as Python `int` does. -/
def pyStrip (l : List Char) : List Char :=
  ((l.dropWhile isPySpace).reverse.dropWhile isPySpace).reverse

/-- Value of an ASCII hexadecimal digit (`0`-`9`, `a`-`f`, `A`-`F`),
stated over character codes (48 = `0`, 57 = `9`, 97 = `a`, 102 = `f`,
65 = `A`, 70 = `F`). -/
def hexDigitVal (c : Char) : Option Nat :=
  if 48 ≤ c.toNat ∧ c.toNat ≤ 57 then some (c.toNat - 48)
  else if 97 ≤ c.toNat ∧ c.toNat ≤ 102 then some (c.toNat - 87)
  else if 65 ≤ c.toNat ∧ c.toNat ≤ 70 then some (c.toNat - 55)
  else none

/-- Value of `c` as a digit in the given base (10 or 16 here). -/
def digitVal (base : Nat) (c : Char) : Option Nat :=
  match hexDigitVal c with
  | some v => if v < base then some v else none
  | none => none

/-- Accumulate digits left to right; a single underscore may separate two
digits (Python grammar `digit (["_"] digit)*`).  The accumulator already
holds the value of the digits consumed so far. -/
def parseDigitsAux (base : Nat) : Nat → List Char → Option Nat
  | acc, [] => some acc
  | acc, c :: rest =>
    if c = '_' then
      match rest with
      | [] => none
      | c2 :: rest2 =>
        match digitVal base c2 with
        | some v => parseDigitsAux base (acc * base + v) rest2
        | none => none
    else
      match digitVal base c with
      | some v => parseDigitsAux base (acc * base + v) rest
      | none => none

/-- A non-empty digit run that may not begin with an underscore (the bare,
non-prefixed form of a Python integer literal body). -/
def parseDigits (base : Nat) (l : List Char) : Option Nat :=
  match l with
  | [] => none
  | c :: _ => if c = '_' then none else parseDigitsAux base 0 l

/-- Split an optional leading sign, returning the sign and the remainder. -/
def pySignSplit (l : List Char) : Int × List Char :=
  match l with
  | [] => (1, [])
  | c :: rest => if c = '+' then (1, rest) else if c = '-' then (-1, rest) else (1, l)

/-- Recognise the `0x` / `0X` base marker accepted by `int(s, 16)`. -/
def pyHexMarkSplit (l : List Char) : Option (List Char) :=
  match l with
  | c0 :: c1 :: rest =>
    if c0 = '0' ∧ (c1 = 'x' ∨ c1 = 'X') then some rest else none
  | _ => none

/-- Python `int(s, base)` for `base ∈ {10, 16}`, on ASCII input.
After an explicit `0x` marker a leading underscore is allowed
(`int("0x_1a", 16)` succeeds in CPython). -/
def pyIntParse (s : String) (base : Nat) : Option Int :=
  let l0 := pyStrip s.toList
  let sc := pySignSplit l0
  let mag : Option Nat :=
    if base = 16 then
      match pyHexMarkSplit sc.2 with
      | some rest =>
        match rest with
        | [] => none
        | _ :: _ => parseDigitsAux 16 0 rest
      | none => parseDigits 16 sc.2
    else
      parseDigits base sc.2
  mag.map (fun (n : Nat) => sc.1 * (n : Int))

/-- Python `str.startswith`, over the underlying character lists. -/
def pyStartsWith (s pre : String) : Bool :=
  s.toList.take pre.toList.length = pre.toList

/-- The `ValueError` text raised by `int` on a bad literal (CPython's
quotation marks around the literal are omitted). -/
def invalidLiteralMsg (base : Nat) (s : String) : String :=
  "invalid literal for int() with base " ++ toString base ++ ": " ++ s

deriving instance DecidableEq for Except

/-- Lines 23-27 of the script: a string starting with lowercase `0x` is
parsed with `int(window_id, 16)`, anything else with `int(window_id)`
(base 10).  A `ValueError` is modelled as `Except.error` carrying the
message. -/
def parseWindowId (s : String) : Except String Int :=
  if pyStartsWith s "0x" then
    match pyIntParse s 16 with
    | some v => Except.ok v
    | none => Except.error (invalidLiteralMsg 16 s)
  else
    match pyIntParse s 10 with
    | some v => Except.ok v
    | none => Except.error (invalidLiteralMsg 10 s)

/-- Lowercase hexadecimal digits of `n`, most significant first, matching
Python `hex`.  The fuel argument starts at `n + 1`, which always suffices. -/
def natToHexCore : Nat → Nat → List Char → List Char
  | 0, _, acc => acc
  | fuel + 1, n, acc =>
    if n < 16 then
      (Nat.digitChar n) :: acc
    else
      natToHexCore fuel (n / 16) (Nat.digitChar (n % 16) :: acc)

/-- Python `hex(i)`: `0x`-prefixed lowercase hex, with a leading `-` for
negative arguments. -/
def pyHex (i : Int) : String :=
  let body := "0x" ++ String.mk (natToHexCore (i.natAbs + 1) i.natAbs [])
  if i < 0 then "-" ++ body else body

/-- Shape operation codes of the SHAPE extension (`shape.SO_Set` is used). -/
inductive ShapeOp where
  | Set | Union | Intersect | Subtract | Invert
  deriving DecidableEq, Repr

/-- Shape kind codes of the SHAPE extension (`shape.SK_Input` is used). -/
inductive ShapeKind where
  | Bounding | Clip | Input
  deriving DecidableEq, Repr

/-- Rectangle-list ordering hints (`X.YXBanded` is used). -/
inductive RectOrder where
  | Unsorted | YSorted | YXSorted | YXBanded
  deriving DecidableEq, Repr

/-- An X rectangle, as would appear in the rectangle list of a
`ShapeRectangles` request.  The script always passes the empty list. -/
structure XRect where
  x : Int
  y : Int
  rectWidth : Nat
  rectHeight : Nat
  deriving DecidableEq, Repr

/-- Protocol-level events the script can cause on the display connection:
opening the connection (`display.Display()`), the one shape-mutation
request (`window.shape_rectangles(...)`), and the synchronisation
(`d.sync()`). -/
inductive XEvent where
  | connect
  | shapeRequest (wid : Int) (op : ShapeOp) (kind : ShapeKind)
      (ordering : RectOrder) (xoff yoff : Int) (rects : List XRect)
  | sync
  deriving DecidableEq, Repr

/-- Is the event a shape-mutation request. -/
def XEvent.isShapeReq : XEvent → Bool
  | .shapeRequest .. => true
  | _ => false

/-- Environment oracle for the effectful steps: whether the `Xlib` import
succeeds; whether `display.Display()` raises (and with what message);
whether `d.has_extension("SHAPE")` returns true; whether
`window.shape_rectangles(...)` itself raises before the request is queued
(e.g. serialisation failure); whether the error surfaces at `d.sync()`
(server-side rejection, delivered asynchronously). -/
structure Env where
  importOk : Bool
  connectError : Option String
  hasShape : Bool
  sendError : Option String
  syncError : Option String
  deriving DecidableEq, Repr

/-- Observable outcome of one call of `make_click_through`: the returned
boolean, the lines printed, and the protocol events caused. -/
structure RunOutput where
  success : Bool
  printed : List String
  events : List XEvent
  deriving DecidableEq, Repr

/-- Lines 17-56 of the script: the body of `make_click_through(window_id)`
for a string argument, with its single `try`/`except Exception` block.
The connection is opened first; the identifier is parsed afterwards; the
SHAPE capability is checked next; on the success path exactly one
`ShapeRectangles(Set, Input, YXBanded, 0, 0, [])` request is issued and the
connection is synchronised once before the confirmation is printed. -/
def make_click_through (env : Env) (window_id : String) : RunOutput :=
  match env.connectError with
  | some m => ⟨false, ["Error: " ++ m], []⟩
  | none =>
    match parseWindowId window_id with
    | Except.error m => ⟨false, ["Error: " ++ m], [XEvent.connect]⟩
    | Except.ok wid =>
      if env.hasShape = false then
        ⟨false, ["Error: X SHAPE extension not available"], [XEvent.connect]⟩
      else
        match env.sendError with
        | some m => ⟨false, ["Error: " ++ m], [XEvent.connect]⟩
        | none =>
          let req := XEvent.shapeRequest wid ShapeOp.Set ShapeKind.Input
            RectOrder.YXBanded 0 0 []
          match env.syncError with
          | some m =>
            ⟨false, ["Error: " ++ m], [XEvent.connect, req, XEvent.sync]⟩
          | none =>
            ⟨true, ["Window " ++ pyHex wid ++ " is now click-through"],
             [XEvent.connect, req, XEvent.sync]⟩

/-- First line of the usage message (line 60 of the script). -/
def usageLine1 : String := "Usage: make-click-through.py <window_id>"

/-- Second line of the usage message (line 61 of the script). -/
def usageLine2 : String := "  window_id can be decimal or hex (0x...)"

/-- Message printed when the `Xlib` import fails (line 14 of the script). -/
def importErrorMsg : String :=
  "Error: python-xlib not installed. Install with: nix-shell -p python3Packages.xlib"

/-- Observable outcome of a whole process run: exit code, printed lines,
protocol events. -/
structure MainOutput where
  exitCode : Nat
  printed : List String
  events : List XEvent
  deriving DecidableEq, Repr

/-- The module top level (lines 10-15 and 58-68): the import guard, the
argument-count check with its two-line usage message, and the mapping of
`make_click_through`'s boolean result to the process exit code. -/
def mainRun (env : Env) (argv : List String) : MainOutput :=
  if env.importOk = false then
    ⟨1, [importErrorMsg], []⟩
  else
    match argv with
    | _ :: windowIdArg :: _ =>
      let out := make_click_through env windowIdArg
      ⟨if out.success then 0 else 1, out.printed, out.events⟩
    | _ => ⟨1, [usageLine1, usageLine2], []⟩

/-- An ASCII decimal digit, `0`-`9`. -/
def isDecChar (c : Char) : Bool := (digitVal 10 c).isSome

/-- An ASCII hexadecimal digit. -/
def isHexChar (c : Char) : Bool := (hexDigitVal c).isSome

/-- The standard base-`b` interpretation of a digit string (Horner form),
the specification-side meaning of "standard base-10/base-16
interpretation". -/
def digitsValue (b : Nat) (l : List Char) : Nat :=
  l.foldl (fun a c => a * b + (hexDigitVal c).getD 0) 0

/-! ## Helper lemmas about the digit parser -/

theorem dropWhile_eq_self_of_false {α : Type} {p : α → Bool} {l : List α}
    (h : ∀ c ∈ l, p c = false) : l.dropWhile p = l := by
  cases l with
  | nil => rfl
  | cons c t =>
    exact List.dropWhile_cons_of_neg (by simp [h c (List.mem_cons_self c t)])

theorem pyStrip_eq_self {l : List Char} (h : ∀ c ∈ l, isPySpace c = false) :
    pyStrip l = l := by
  unfold pyStrip
  rw [dropWhile_eq_self_of_false h,
    dropWhile_eq_self_of_false (fun c hc => h c (List.mem_reverse.mp hc)),
    List.reverse_reverse]

theorem hexDigitVal_lt_16 {c : Char} {v : Nat} (h : hexDigitVal c = some v) :
    v < 16 := by
  simp only [hexDigitVal] at h
  split at h
  · injection h with h; omega
  · split at h
    · injection h with h; omega
    · split at h
      · injection h with h; omega
      · exact Option.noConfusion h

theorem hexDigitVal_not_space {c : Char} {v : Nat} (h : hexDigitVal c = some v) :
    isPySpace c = false := by
  simp only [isPySpace, Bool.or_eq_false_iff, decide_eq_false_iff_not]
  simp only [hexDigitVal] at h
  split at h
  · omega
  · split at h
    · omega
    · split at h
      · omega
      · exact Option.noConfusion h

theorem ne_of_hexDigitVal_some {c d : Char} {v : Nat} (h : hexDigitVal c = some v)
    (hd : hexDigitVal d = none) : c ≠ d := by
  intro he
  rw [he, hd] at h
  exact Option.noConfusion h

theorem digitVal_eq_some {b : Nat} {c : Char} {v : Nat} (h : digitVal b c = some v) :
    hexDigitVal c = some v ∧ v < b := by
  unfold digitVal at h
  split at h
  · rename_i w hw
    split at h
    · rename_i hwb
      injection h with h
      subst h
      exact ⟨hw, hwb⟩
    · exact Option.noConfusion h
  · exact Option.noConfusion h

theorem digitVal_of_hex {b : Nat} {c : Char} {v : Nat} (hv : hexDigitVal c = some v)
    (hvb : v < b) : digitVal b c = some v := by
  simp [digitVal, hv, hvb]

theorem parseDigitsAux_cons_digit {b acc : Nat} {c : Char} {t : List Char} {v : Nat}
    (hne : c ≠ '_') (hd : digitVal b c = some v) :
    parseDigitsAux b acc (c :: t) = parseDigitsAux b (acc * b + v) t := by
  cases t with
  | nil => simp [parseDigitsAux.eq_2, parseDigitsAux.eq_1, if_neg hne, hd]
  | cons c2 t2 => simp [parseDigitsAux.eq_3, if_neg hne, hd]

theorem parseDigitsAux_digits {b : Nat} :
    ∀ (l : List Char) (acc : Nat),
      (∀ c ∈ l, ∃ v, hexDigitVal c = some v ∧ v < b) →
      parseDigitsAux b acc l =
        some (l.foldl (fun a c => a * b + (hexDigitVal c).getD 0) acc)
  | [], _, _ => rfl
  | c :: t, acc, h => by
    obtain ⟨v, hv, hvb⟩ := h c (List.mem_cons_self c t)
    have hne : c ≠ '_' := ne_of_hexDigitVal_some hv (by decide)
    rw [parseDigitsAux_cons_digit hne (digitVal_of_hex hv hvb)]
    rw [parseDigitsAux_digits t (acc * b + v)
      (fun x hx => h x (List.mem_cons_of_mem c hx))]
    simp [hv]

theorem parseDigits_digits {b : Nat} {l : List Char} (hne : l ≠ [])
    (h : ∀ c ∈ l, ∃ v, hexDigitVal c = some v ∧ v < b) :
    parseDigits b l = some (digitsValue b l) := by
  match l, hne with
  | c :: t, _ =>
    obtain ⟨v, hv, hvb⟩ := h c (List.mem_cons_self c t)
    have hc : c ≠ '_' := ne_of_hexDigitVal_some hv (by decide)
    simp only [parseDigits, if_neg hc]
    exact parseDigitsAux_digits (c :: t) 0 h

theorem isHexChar_exists {c : Char} (h : isHexChar c = true) :
    ∃ v, hexDigitVal c = some v ∧ v < 16 := by
  simp only [isHexChar, Option.isSome_iff_exists] at h
  obtain ⟨v, hv⟩ := h
  exact ⟨v, hv, hexDigitVal_lt_16 hv⟩

theorem isDecChar_exists {c : Char} (h : isDecChar c = true) :
    ∃ v, hexDigitVal c = some v ∧ v < 10 := by
  simp only [isDecChar, Option.isSome_iff_exists] at h
  obtain ⟨v, hv⟩ := h
  exact ⟨v, (digitVal_eq_some hv).1, (digitVal_eq_some hv).2⟩


theorem pySignSplit_no_sign {c : Char} {t : List Char} (h1 : c ≠ '+') (h2 : c ≠ '-') :
    pySignSplit (c :: t) = (1, c :: t) := by
  simp [pySignSplit, h1, h2]

theorem pyHexMarkSplit_mark (l : List Char) :
    pyHexMarkSplit ('0' :: 'x' :: l) = some l := by
  simp [pyHexMarkSplit]

theorem pyIntParse_dec {l : List Char} (hne : l ≠ [])
    (h : ∀ c ∈ l, isDecChar c = true) :
    pyIntParse (String.mk l) 10 = some ((digitsValue 10 l : Int)) := by
  have hdig : ∀ c ∈ l, ∃ v, hexDigitVal c = some v ∧ v < 10 :=
    fun c hc => isDecChar_exists (h c hc)
  have hsp : ∀ c ∈ l, isPySpace c = false := by
    intro c hc
    obtain ⟨v, hv, _⟩ := hdig c hc
    exact hexDigitVal_not_space hv
  match l, hne, hdig, hsp with
  | c :: t, _, hdig, hsp =>
    obtain ⟨v, hv, hvb⟩ := hdig c (List.mem_cons_self c t)
    have hplus : c ≠ '+' := ne_of_hexDigitVal_some hv (by decide)
    have hminus : c ≠ '-' := ne_of_hexDigitVal_some hv (by decide)
    unfold pyIntParse
    simp only [show (String.mk (c :: t)).toList = c :: t from rfl,
      pyStrip_eq_self hsp, pySignSplit_no_sign hplus hminus]
    rw [parseDigits_digits (by simp) hdig]
    simp

theorem pyIntParse_hexMark {l : List Char} (hne : l ≠ [])
    (h : ∀ c ∈ l, isHexChar c = true) :
    pyIntParse (String.mk ('0' :: 'x' :: l)) 16 = some ((digitsValue 16 l : Int)) := by
  have hdig : ∀ c ∈ l, ∃ v, hexDigitVal c = some v ∧ v < 16 :=
    fun c hc => isHexChar_exists (h c hc)
  have hsp : ∀ c ∈ ('0' :: 'x' :: l), isPySpace c = false := by
    intro c hc
    rcases List.mem_cons.mp hc with rfl | hc
    · decide
    · rcases List.mem_cons.mp hc with rfl | hc
      · decide
      · obtain ⟨v, hv, _⟩ := hdig c hc
        exact hexDigitVal_not_space hv
  unfold pyIntParse
  simp only [show (String.mk ('0' :: 'x' :: l)).toList = '0' :: 'x' :: l from rfl,
    pyStrip_eq_self hsp,
    pySignSplit_no_sign (show ('0' : Char) ≠ '+' from by decide)
      (show ('0' : Char) ≠ '-' from by decide),
    pyHexMarkSplit_mark]
  match l, hne, hdig with
  | c :: t, _, hdig =>
    rw [parseDigitsAux_digits (c :: t) 0 hdig]
    simp [digitsValue]

theorem pyStartsWith_mark_of_cons {c0 c1 : Char} {t : List Char} :
    pyStartsWith (String.mk (c0 :: c1 :: t)) "0x" =
      (decide (c0 = '0') && decide (c1 = 'x')) := by
  simp [pyStartsWith, show ("0x".toList) = ['0', 'x'] from rfl, List.take_succ_cons,
    Bool.decide_and]

/-! ## Claim theorems: identifier parsing -/

/-- C5: for every non-empty string of decimal digits, the identifier parse
of lines 23-27 succeeds and yields the standard base-10 interpretation of
the string (arbitrary width, no overflow). -/
theorem parse_decimal_standard (l : List Char) (hne : l ≠ [])
    (h : ∀ c ∈ l, isDecChar c = true) :
    parseWindowId (String.mk l) = Except.ok ((digitsValue 10 l : Int)) := by
  have hsw : pyStartsWith (String.mk l) "0x" = false := by
    match l, hne, h with
    | [c], _, h => simp [pyStartsWith, show ("0x".toList) = ['0', 'x'] from rfl]
    | c :: c2 :: t, _, h =>
      rw [pyStartsWith_mark_of_cons]
      obtain ⟨v, hv, _⟩ := isDecChar_exists (h c2 (by simp))
      have hx : c2 ≠ 'x' := ne_of_hexDigitVal_some hv (by decide)
      simp [hx]
  unfold parseWindowId
  simp only [hsw, Bool.false_eq_true, if_false]
  rw [pyIntParse_dec hne h]

/-- Witness for `parse_decimal_standard` at the concrete input `"12345"`. -/
theorem parse_decimal_standard_witness :
    parseWindowId (String.mk ['1', '2', '3', '4', '5']) =
      Except.ok ((digitsValue 10 ['1', '2', '3', '4', '5'] : Int)) :=
  parse_decimal_standard ['1', '2', '3', '4', '5'] (by decide) (by decide)

/-- C4 fails as stated: `"0X1a"` consists of a `0X` marker followed by
hexadecimal digits, yet the parse rejects it, because the script's
case-sensitive `startswith("0x")` routes it to the base-10 `int`. -/
theorem parse_upper_mark_fails :
    parseWindowId "0X1a" = Except.error (invalidLiteralMsg 10 "0X1a") := by decide

/-- C4 (amended): for every string made of a lowercase `0x` marker followed
by a non-empty run of hexadecimal digits, parsing succeeds and yields the
standard base-16 interpretation of the digits after the marker; uppercase
`0X` markers are rejected instead. -/
theorem parse_hex_standard (l : List Char) (hne : l ≠ [])
    (h : ∀ c ∈ l, isHexChar c = true) :
    parseWindowId (String.mk ('0' :: 'x' :: l)) =
      Except.ok ((digitsValue 16 l : Int)) := by
  have hsw : pyStartsWith (String.mk ('0' :: 'x' :: l)) "0x" = true := by
    rw [pyStartsWith_mark_of_cons]
    simp
  unfold parseWindowId
  simp only [hsw, if_true]
  rw [pyIntParse_hexMark hne h]

/-- Witness for `parse_hex_standard` at the concrete input `"0x1a"`. -/
theorem parse_hex_standard_witness :
    parseWindowId (String.mk ('0' :: 'x' :: ['1', 'a'])) =
      Except.ok ((digitsValue 16 ['1', 'a'] : Int)) :=
  parse_hex_standard ['1', 'a'] (by decide) (by decide)

/-- C9: the identifier parser accepts inputs outside the spec's
decimal / lowercase-hex formats: leading signs, surrounding whitespace and
underscore separators all parse, and `"-5"` yields a negative handle
rather than a parse failure. -/
theorem parse_lenient_beyond_spec :
    parseWindowId "-5" = Except.ok (-5) ∧
    parseWindowId "+7" = Except.ok 7 ∧
    parseWindowId " 12 " = Except.ok 12 ∧
    parseWindowId "1_000" = Except.ok 1000 := by decide

/-! ## Claim theorems: process behaviour -/

/-- C1: on the success path exactly one shape-mutation request is issued —
operation Set, kind Input, YXBanded ordering, offset (0,0), empty
rectangle list — and the connection is synchronised exactly once, after
the request and before success (exit 0) is reported. -/
theorem success_path_trace (env : Env) (p s : String) (wid : Int)
    (himp : env.importOk = true) (hconn : env.connectError = none)
    (hparse : parseWindowId s = Except.ok wid) (hshape : env.hasShape = true)
    (hsend : env.sendError = none) (hsync : env.syncError = none) :
    mainRun env [p, s] =
      ⟨0, ["Window " ++ pyHex wid ++ " is now click-through"],
       [XEvent.connect,
        XEvent.shapeRequest wid ShapeOp.Set ShapeKind.Input RectOrder.YXBanded 0 0 [],
        XEvent.sync]⟩ := by
  simp [mainRun, make_click_through, himp, hconn, hparse, hshape, hsend, hsync]

/-- Witness for `success_path_trace`: a healthy environment and the input
`"12345"`. -/
theorem success_path_trace_witness :
    mainRun ⟨true, none, true, none, none⟩ ["make-click-through.py", "12345"] =
      ⟨0, ["Window " ++ pyHex 12345 ++ " is now click-through"],
       [XEvent.connect,
        XEvent.shapeRequest 12345 ShapeOp.Set ShapeKind.Input RectOrder.YXBanded 0 0 [],
        XEvent.sync]⟩ :=
  success_path_trace ⟨true, none, true, none, none⟩ "make-click-through.py" "12345" 12345
    rfl rfl (by decide) rfl rfl rfl

/-- C2: if the server does not advertise the SHAPE extension the process
exits with code 1 and the event trace contains no shape-mutation request,
for every argument vector and whatever else the environment does. -/
theorem no_extension_no_mutation (env : Env) (argv : List String)
    (h : env.hasShape = false) :
    (mainRun env argv).exitCode = 1 ∧
    ∀ e ∈ (mainRun env argv).events, e.isShapeReq = false := by
  obtain ⟨imp, conn, shape, send, sync⟩ := env
  simp only at h
  subst h
  cases imp with
  | false => simp [mainRun]
  | true =>
    cases argv with
    | nil => simp [mainRun]
    | cons a t =>
      cases t with
      | nil => simp [mainRun]
      | cons b t2 =>
        cases conn with
        | some m => simp [mainRun, make_click_through]
        | none =>
          cases hp : parseWindowId b with
          | error m => simp [mainRun, make_click_through, hp, XEvent.isShapeReq]
          | ok wid => simp [mainRun, make_click_through, hp, XEvent.isShapeReq]

/-- Witness for `no_extension_no_mutation`: SHAPE missing, input `"12345"`. -/
theorem no_extension_no_mutation_witness :
    (mainRun ⟨true, none, false, none, none⟩ ["make-click-through.py", "12345"]).exitCode = 1 ∧
    ∀ e ∈ (mainRun ⟨true, none, false, none, none⟩
      ["make-click-through.py", "12345"]).events, e.isShapeReq = false :=
  no_extension_no_mutation ⟨true, none, false, none, none⟩
    ["make-click-through.py", "12345"] rfl

/-- C3 fails as stated: on the malformed identifier `"notanumber"` the run
exits with code 1 and prints the parse error, but the event trace records
that the display connection was opened — `display.Display()` runs on line
20, before the parsing on lines 23-27 — so "without attempting a
connection" is violated. -/
theorem parse_error_still_connects :
    mainRun ⟨true, none, true, none, none⟩ ["make-click-through.py", "notanumber"] =
      ⟨1, ["Error: " ++ invalidLiteralMsg 10 "notanumber"], [XEvent.connect]⟩ ∧
    XEvent.connect ∈ (mainRun ⟨true, none, true, none, none⟩
      ["make-click-through.py", "notanumber"]).events := by decide

/-- C3 (amended): for every identifier string the parse rejects, if the
library imports and the connection opens, the run prints the parse error
prefixed `Error:` and exits with code 1, and no shape request is sent —
but the connection to the display server has already been opened before
parsing. -/
theorem parse_error_exit_one (env : Env) (p s m : String)
    (himp : env.importOk = true) (hconn : env.connectError = none)
    (hparse : parseWindowId s = Except.error m) :
    mainRun env [p, s] = ⟨1, ["Error: " ++ m], [XEvent.connect]⟩ := by
  simp [mainRun, make_click_through, himp, hconn, hparse]

/-- Witness for `parse_error_exit_one` at the input `"notanumber"`. -/
theorem parse_error_exit_one_witness :
    mainRun ⟨true, none, true, none, none⟩ ["make-click-through.py", "notanumber"] =
      ⟨1, ["Error: " ++ invalidLiteralMsg 10 "notanumber"], [XEvent.connect]⟩ :=
  parse_error_exit_one ⟨true, none, true, none, none⟩ "make-click-through.py"
    "notanumber" (invalidLiteralMsg 10 "notanumber") rfl rfl (by decide)

/-- C6: when the import, connection, capability and request all succeed,
input `"12345"` exits with code 0 and the confirmation line contains the
handle in hexadecimal, `0x3039`. -/
theorem input_12345_confirms_hex (env : Env) (p : String)
    (himp : env.importOk = true) (hconn : env.connectError = none)
    (hshape : env.hasShape = true) (hsend : env.sendError = none)
    (hsync : env.syncError = none) :
    mainRun env [p, "12345"] =
      ⟨0, ["Window 0x3039 is now click-through"],
       [XEvent.connect,
        XEvent.shapeRequest 12345 ShapeOp.Set ShapeKind.Input RectOrder.YXBanded 0 0 [],
        XEvent.sync]⟩ := by
  simp [mainRun, make_click_through, himp, hconn, hshape, hsend, hsync,
    show parseWindowId "12345" = Except.ok 12345 from by decide,
    show pyHex 12345 = "0x3039" from by decide]

/-- Witness for `input_12345_confirms_hex` in a healthy environment. -/
theorem input_12345_confirms_hex_witness :
    mainRun ⟨true, none, true, none, none⟩ ["make-click-through.py", "12345"] =
      ⟨0, ["Window 0x3039 is now click-through"],
       [XEvent.connect,
        XEvent.shapeRequest 12345 ShapeOp.Set ShapeKind.Input RectOrder.YXBanded 0 0 [],
        XEvent.sync]⟩ :=
  input_12345_confirms_hex ⟨true, none, true, none, none⟩ "make-click-through.py"
    rfl rfl rfl rfl rfl

/-- C7: whenever the operation fails — connection failure, parse failure,
missing capability, request failure, or server-side rejection surfacing at
sync — the failure is caught, exactly one line prefixed `Error:` is
printed, the process exits with code 1, and the event trace has no
duplicate (nothing is retried). -/
theorem errors_caught_exit_one (env : Env) (p s : String)
    (himp : env.importOk = true)
    (hfail : (make_click_through env s).success = false) :
    (∃ m, (make_click_through env s).printed = ["Error: " ++ m]) ∧
    (mainRun env [p, s]).exitCode = 1 ∧
    (make_click_through env s).events.Nodup := by
  obtain ⟨imp, conn, shape, send, sync⟩ := env
  simp only at himp
  subst himp
  cases conn with
  | some m =>
    refine ⟨⟨m, by simp [make_click_through]⟩, ?_, by simp [make_click_through]⟩
    simp [mainRun, make_click_through]
  | none =>
    cases hp : parseWindowId s with
    | error m =>
      refine ⟨⟨m, by simp [make_click_through, hp]⟩, ?_, by simp [make_click_through, hp]⟩
      simp [mainRun, make_click_through, hp]
    | ok wid =>
      cases shape with
      | false =>
        refine ⟨⟨"X SHAPE extension not available",
          by simp [make_click_through, hp]⟩, ?_, by simp [make_click_through, hp]⟩
        simp [mainRun, make_click_through, hp]
      | true =>
        cases send with
        | some m =>
          refine ⟨⟨m, by simp [make_click_through, hp]⟩, ?_,
            by simp [make_click_through, hp]⟩
          simp [mainRun, make_click_through, hp]
        | none =>
          cases sync with
          | some m =>
            refine ⟨⟨m, by simp [make_click_through, hp]⟩, ?_,
              by simp [make_click_through, hp]⟩
            simp [mainRun, make_click_through, hp]
          | none =>
            exfalso
            simp [make_click_through, hp] at hfail

/-- Witness for `errors_caught_exit_one`: a server-side rejection delivered
at sync time (nonexistent window handle). -/
theorem errors_caught_exit_one_witness :
    (∃ m, (make_click_through ⟨true, none, true, none, some "BadWindow"⟩
      "12345").printed = ["Error: " ++ m]) ∧
    (mainRun ⟨true, none, true, none, some "BadWindow"⟩
      ["make-click-through.py", "12345"]).exitCode = 1 ∧
    (make_click_through ⟨true, none, true, none, some "BadWindow"⟩
      "12345").events.Nodup :=
  errors_caught_exit_one ⟨true, none, true, none, some "BadWindow"⟩
    "make-click-through.py" "12345" rfl (by decide)

/-- C8: with fewer than two argv entries (no window-identifier argument)
the program prints the two-line usage message and exits with code 1,
causing no protocol event at all — in particular no connection. -/
theorem missing_arg_usage (env : Env) (argv : List String)
    (himp : env.importOk = true) (hlen : argv.length < 2) :
    mainRun env argv = ⟨1, [usageLine1, usageLine2], []⟩ := by
  cases argv with
  | nil => simp [mainRun, himp]
  | cons a t =>
    cases t with
    | nil => simp [mainRun, himp]
    | cons b t2 =>
      simp only [List.length_cons] at hlen
      omega

/-- Witness for `missing_arg_usage`: the program invoked with only its own
name in argv. -/
theorem missing_arg_usage_witness :
    mainRun ⟨true, none, true, none, none⟩ ["make-click-through.py"] =
      ⟨1, [usageLine1, usageLine2], []⟩ :=
  missing_arg_usage ⟨true, none, true, none, none⟩ ["make-click-through.py"]
    rfl (by decide)

/-- C10: if the Xlib import fails, every invocation — whatever the
arguments — prints the `Error:`-prefixed installation message and exits
with code 1, with no protocol event: neither parsing output nor a
connection can occur. -/
theorem import_guard_exit_one (env : Env) (argv : List String)
    (h : env.importOk = false) :
    mainRun env argv = ⟨1, [importErrorMsg], []⟩ := by
  simp [mainRun, h]

/-- Witness for `import_guard_exit_one` on a full argument vector. -/
theorem import_guard_exit_one_witness :
    mainRun ⟨false, none, true, none, none⟩ ["make-click-through.py", "12345"] =
      ⟨1, [importErrorMsg], []⟩ :=
  import_guard_exit_one ⟨false, none, true, none, none⟩
    ["make-click-through.py", "12345"] rfl
